import Mathlib

/-!
Shallow embedding of `src/rate-limit-wrapper.js` (warden-worker).

The wrapper intercepts HTTP requests, applies a rate-limit decision pipeline
(policy lookup by exact path, key extraction, limiter capability call),
and either returns a 429 response or forwards the request to the backend
WASM worker.  Scheduled events bypass the pipeline entirely.

Modelling conventions:
- `Request.pathname` stands for `new URL(request.url).pathname`.
- Headers are a list of name/value pairs; `Headers.get` is case-insensitive,
  so lookup lower-cases both sides.
- The request body is modelled by what the two parse operations of the code
  (`clonedRequest.formData()` and `clonedRequest.json()`) would yield:
  `none` means the parse throws, field values are JS values (`JsVal`),
  where a non-string value makes `.toLowerCase()` throw.
- The limiter capability is a function from key to an outcome that either
  resolves `{success}` or throws.
- Effects the claims talk about (console logs, whether a body parse was
  performed, which keys were passed to `limiter.limit`) are returned
  explicitly alongside each result.
- The module-level `wasmWorkerInstance` variable of the source is never
  assigned; every `fetch`/`scheduled` invocation constructs a fresh backend
  instance.  The embedding therefore takes the backend as a pure function
  and processes each request independently (`handleSequence`).
-/

namespace RateLimitWrapper

/-- A JS value as far as key extraction observes it: a string, or some other
value of which only truthiness matters (calling `.toLowerCase()` on it throws). -/
inductive JsVal where
  | vStr (s : String)
  | vOther (truthy : Bool)
deriving DecidableEq

/-- JS truthiness of a `JsVal` (a string is truthy iff non-empty). -/
def JsVal.isTruthy : JsVal → Bool
  | .vStr s => s ≠ ""
  | .vOther t => t

/-- JS `String.prototype.toLowerCase`, character by character. -/
def jsToLowerCase (s : String) : String :=
  ⟨s.data.map Char.toLower⟩

/-- JS `.toLowerCase()`: lowers a string, throws (`none`) on a non-string. -/
def JsVal.toLowerCase : JsVal → Option String
  | .vStr s => some (jsToLowerCase s)
  | .vOther _ => none

/-- The request body, modelled by the results of the two parses the code can
perform on the cloned request.  Outer `none` = the parse throws. -/
structure ReqBody where
  /-- `(await clonedRequest.formData()).get("username")`: `none` if
  `formData()` throws, `some none` if the field is absent (JS `null`). -/
  formUsername : Option (Option JsVal)
  /-- `await clonedRequest.json()` restricted to the two fields the code reads:
  `none` if `json()` throws, otherwise `(body.email, body.username)` with
  `none` for an absent field (JS `undefined`). -/
  jsonFields : Option (Option JsVal × Option JsVal)
deriving DecidableEq

/-- An incoming HTTP request, as observed by the wrapper. -/
structure Request where
  /-- `new URL(request.url).pathname`. -/
  pathname : String
  headers : List (String × String)
  body : ReqBody
deriving DecidableEq

/-- `Headers.get`: case-insensitive lookup, `none` when absent. -/
def headersGet (hs : List (String × String)) (name : String) : Option String :=
  (hs.find? (fun p => jsToLowerCase p.1 == jsToLowerCase name)).map (fun p => p.2)

/-- `pat` occurs at the start of `s` (on character lists). -/
def isPrefixChars : List Char → List Char → Bool
  | [], _ => true
  | _ :: _, [] => false
  | a :: pat, b :: s => a == b && isPrefixChars pat s

/-- `pat` occurs somewhere in `s` (on character lists). -/
def containsChars (s pat : List Char) : Bool :=
  isPrefixChars pat s ||
    match s with
    | [] => false
    | _ :: rest => containsChars rest pat

/-- JS `String.prototype.includes`. -/
def strContains (s pat : String) : Bool :=
  containsChars s.data pat.data

/-- The `keyType` field of a policy entry. -/
inductive KeyType where
  | email
  | ip
deriving DecidableEq

/-- One entry of `RATE_LIMITED_ENDPOINTS`. -/
structure EndpointConfig where
  limiter : String
  keyType : KeyType
deriving DecidableEq

/-- The policy table `RATE_LIMITED_ENDPOINTS` of the source. -/
def RATE_LIMITED_ENDPOINTS : List (String × EndpointConfig) :=
  [("/identity/connect/token", ⟨"LOGIN_RATE_LIMITER", KeyType.email⟩),
   ("/api/accounts/register", ⟨"LOGIN_RATE_LIMITER", KeyType.ip⟩),
   ("/api/accounts/prelogin", ⟨"LOGIN_RATE_LIMITER", KeyType.ip⟩)]

/-- `RATE_LIMITED_ENDPOINTS[pathname]`: exact, case-sensitive key lookup. -/
def lookupEndpoint (path : String) : Option EndpointConfig :=
  (RATE_LIMITED_ENDPOINTS.find? (fun p => p.1 == path)).map (fun p => p.2)

/-- A console log entry. -/
inductive LogEntry where
  | warn (msg : String)
  | error (msg : String)
deriving DecidableEq

/-- Result of `extractRateLimitKey` together with its effects. -/
structure ExtractResult where
  key : String
  logs : List LogEntry
  /-- whether a body parse (`formData()` or `json()`) was performed. -/
  bodyRead : Bool
deriving DecidableEq

/-- The IP fallback of `extractRateLimitKey`:
`const ip = request.headers.get("cf-connecting-ip") || "unknown"; return ip:...`.
JS `||` replaces a falsy (absent or empty) header value by `"unknown"`. -/
def ipFallbackKey (request : Request) : String :=
  let ip := match headersGet request.headers "cf-connecting-ip" with
    | some s => if s == "" then "unknown" else s
    | none => "unknown"
  "ip:" ++ ip

/-- `extractRateLimitKey(request, keyType)` of the source. -/
def extractRateLimitKey (request : Request) (keyType : KeyType) : ExtractResult :=
  match keyType with
  | .ip => ⟨ipFallbackKey request, [], false⟩
  | .email =>
    let contentType := (headersGet request.headers "content-type").getD ""
    if strContains contentType "application/x-www-form-urlencoded" then
      match request.body.formUsername with
      | none =>
        ⟨ipFallbackKey request, [.warn "Failed to extract email from request body:"], true⟩
      | some none => ⟨ipFallbackKey request, [], true⟩
      | some (some v) =>
        if v.isTruthy then
          match v.toLowerCase with
          | some s => ⟨"email:" ++ s, [], true⟩
          | none =>
            ⟨ipFallbackKey request, [.warn "Failed to extract email from request body:"], true⟩
        else ⟨ipFallbackKey request, [], true⟩
    else if strContains contentType "application/json" then
      match request.body.jsonFields with
      | none =>
        ⟨ipFallbackKey request, [.warn "Failed to extract email from request body:"], true⟩
      | some (e, u) =>
        let email : Option JsVal :=
          match e with
          | some v => if v.isTruthy then some v else u
          | none => u
        match email with
        | none => ⟨ipFallbackKey request, [], true⟩
        | some v =>
          if v.isTruthy then
            match v.toLowerCase with
            | some s => ⟨"email:" ++ s, [], true⟩
            | none =>
              ⟨ipFallbackKey request, [.warn "Failed to extract email from request body:"], true⟩
          else ⟨ipFallbackKey request, [], true⟩
    else ⟨ipFallbackKey request, [], false⟩

/-- Outcome of a call `limiter.limit({key})`: the promise resolves to
`{success}` or rejects. -/
inductive LimitOutcome where
  | result (success : Bool)
  | throws

/-- The environment bindings object: named limiter capabilities. -/
structure Env where
  bindings : List (String × (String → LimitOutcome))

/-- `env[name]`: `none` models an absent (falsy) binding. -/
def envGet (env : Env) (name : String) : Option (String → LimitOutcome) :=
  (env.bindings.find? (fun p => p.1 == name)).map (fun p => p.2)

/-- The decision object `{limited, key, endpoint}` of `checkRateLimit`. -/
structure Decision where
  limited : Bool
  key : String
  endpoint : String
deriving DecidableEq

/-- Result of `checkRateLimit` with its effects: the decision (or `null`),
console logs, whether a body parse happened, and the keys passed to
`limiter.limit` in order. -/
structure CheckResult where
  decision : Option Decision
  logs : List LogEntry
  bodyRead : Bool
  limiterCalls : List String

/-- `checkRateLimit(request, env)` of the source. -/
def checkRateLimit (request : Request) (env : Env) : CheckResult :=
  let pathname := request.pathname
  match lookupEndpoint pathname with
  | none => ⟨none, [], false, []⟩
  | some endpointConfig =>
    match envGet env endpointConfig.limiter with
    | none =>
      ⟨none,
       [.warn ("Rate limiter binding \x27" ++ endpointConfig.limiter ++
         "\x27 not found, skipping rate limit check")],
       false, []⟩
    | some limiter =>
      let er := extractRateLimitKey request endpointConfig.keyType
      match limiter er.key with
      | .result success =>
        ⟨some ⟨!success, er.key, pathname⟩, er.logs, er.bodyRead, [er.key]⟩
      | .throws =>
        ⟨none, er.logs ++ [.error "Rate limit check failed:"], er.bodyRead, [er.key]⟩

/-- An HTTP response as the wrapper builds or forwards it. -/
structure Response where
  status : Nat
  headers : List (String × String)
  body : String
deriving DecidableEq

/-- `JSON.stringify(errorResponse)` of `createRateLimitResponse`: exact bytes. -/
def rateLimitErrorBody : String :=
  "\x7b\"error\":\"too_many_requests\",\"error_description\":\"Too many requests. Please try again later.\",\"ErrorModel\":\x7b\"Message\":\"Too many requests. Please try again later.\",\"Object\":\"error\"\x7d\x7d"

/-- `createRateLimitResponse(key, endpoint)` of the source, with its log. -/
def createRateLimitResponse (key endpoint : String) : Response × List LogEntry :=
  (⟨429,
    [("Content-Type", "application/json"), ("Retry-After", "60")],
    rateLimitErrorBody⟩,
   [.warn ("Rate limit exceeded for " ++ endpoint ++ ", key: " ++ key)])

/-- Outcome of the top-level `fetch` handler with its observable effects. -/
structure FetchOutcome where
  response : Response
  logs : List LogEntry
  bodyRead : Bool
  limiterCalls : List String
  /-- whether the request was forwarded to the backend WASM worker. -/
  forwardedToBackend : Bool

/-- The exported `fetch(request, env, ctx)` handler; the backend WASM worker
is the function `backend` (constructed fresh per invocation in the source). -/
def fetch (backend : Request → Response) (request : Request) (env : Env) :
    FetchOutcome :=
  let cr := checkRateLimit request env
  match cr.decision with
  | some d =>
    if d.limited then
      let rl := createRateLimitResponse d.key d.endpoint
      ⟨rl.1, cr.logs ++ rl.2, cr.bodyRead, cr.limiterCalls, false⟩
    else
      ⟨backend request, cr.logs, cr.bodyRead, cr.limiterCalls, true⟩
  | none => ⟨backend request, cr.logs, cr.bodyRead, cr.limiterCalls, true⟩

/-- The exported `scheduled(event, env, ctx)` handler: forwards the event to
the backend worker's `scheduled` entry point.  Alongside the backend result it
returns the pipeline effects of the invocation (logs, body reads as a flag,
limiter keys), which are all trivially absent on this path. -/
def scheduled {Event Resp : Type} (backendScheduled : Event → Resp)
    (event : Event) : Resp × List LogEntry × Bool × List String :=
  (backendScheduled event, [], false, [])

/-- Processing a sequence of requests: the source keeps no mutable state
across invocations (its only module-level variable is never assigned), so
each request is handled independently. -/
def handleSequence (backend : Request → Response) (env : Env)
    (requests : List Request) : List FetchOutcome :=
  requests.map (fun r => fetch backend r env)

/-! ### Helper lemmas -/

lemma append_ne_empty (p s : String) (hp : p.length ≠ 0) : p ++ s ≠ "" := by
  intro h
  have hlen := congrArg String.length h
  rw [String.length_append, String.length_empty] at hlen
  omega

/-- Evaluation of `checkRateLimit` when the path matches and the binding exists. -/
lemma checkRateLimit_of_bound (request : Request) (env : Env)
    (cfg : EndpointConfig) (limiter : String → LimitOutcome)
    (hpath : lookupEndpoint request.pathname = some cfg)
    (hbind : envGet env cfg.limiter = some limiter) :
    checkRateLimit request env =
      match limiter (extractRateLimitKey request cfg.keyType).key with
      | .result success =>
        ⟨some ⟨!success, (extractRateLimitKey request cfg.keyType).key,
           request.pathname⟩,
         (extractRateLimitKey request cfg.keyType).logs,
         (extractRateLimitKey request cfg.keyType).bodyRead,
         [(extractRateLimitKey request cfg.keyType).key]⟩
      | .throws =>
        ⟨none,
         (extractRateLimitKey request cfg.keyType).logs ++
           [.error "Rate limit check failed:"],
         (extractRateLimitKey request cfg.keyType).bodyRead,
         [(extractRateLimitKey request cfg.keyType).key]⟩ := by
  unfold checkRateLimit
  simp only [hpath, hbind]

/-- Evaluation of `checkRateLimit` when the path matches but the binding is
absent. -/
lemma checkRateLimit_of_unbound (request : Request) (env : Env)
    (cfg : EndpointConfig)
    (hpath : lookupEndpoint request.pathname = some cfg)
    (hbind : envGet env cfg.limiter = none) :
    checkRateLimit request env =
      ⟨none,
       [.warn ("Rate limiter binding \x27" ++ cfg.limiter ++
         "\x27 not found, skipping rate limit check")],
       false, []⟩ := by
  unfold checkRateLimit
  simp only [hpath, hbind]

/-- The IP fallback key always has the shape `ip:` + value. -/
lemma ipFallbackKey_shape (request : Request) :
    ∃ s : String, ipFallbackKey request = "ip:" ++ s :=
  ⟨_, rfl⟩

/-- Every extracted key is an `email:`-prefixed success or the IP fallback. -/
lemma extract_key_shape (request : Request) (keyType : KeyType) :
    (∃ s : String, (extractRateLimitKey request keyType).key = "email:" ++ s) ∨
    (extractRateLimitKey request keyType).key = ipFallbackKey request := by
  cases keyType
  case ip => exact Or.inr rfl
  case email =>
    simp only [extractRateLimitKey]
    repeat' split
    all_goals first
      | exact Or.inr rfl
      | exact Or.inl ⟨_, rfl⟩

/-! ### Claims -/

/-- Claim C1: for every request whose path exactly matches a policy-table
entry, whose named limiter binding exists, and whose `limit` call resolves to
`{success: false}`, `checkRateLimit` returns a decision with `limited: true`
carrying the derived key and the matched path, and the top-level `fetch`
handler returns status 429 with headers `Content-Type: application/json` and
`Retry-After: 60` and the exact JSON error body. -/
theorem claim1_limited_request_gets_429 (backend : Request → Response)
    (request : Request) (env : Env) (cfg : EndpointConfig)
    (limiter : String → LimitOutcome)
    (hpath : lookupEndpoint request.pathname = some cfg)
    (hbind : envGet env cfg.limiter = some limiter)
    (hlim : limiter (extractRateLimitKey request cfg.keyType).key =
      LimitOutcome.result false) :
    (checkRateLimit request env).decision =
      some ⟨true, (extractRateLimitKey request cfg.keyType).key,
        request.pathname⟩ ∧
    (fetch backend request env).response =
      ⟨429, [("Content-Type", "application/json"), ("Retry-After", "60")],
        rateLimitErrorBody⟩ := by
  have hc := checkRateLimit_of_bound request env cfg limiter hpath hbind
  rw [hlim] at hc
  constructor
  · rw [hc]
    rfl
  · unfold fetch
    rw [hc]
    simp [createRateLimitResponse]

def c1request : Request :=
  ⟨"/identity/connect/token",
   [("content-type", "application/json")],
   ⟨none, some (some (.vStr "User@Example.com"), none)⟩⟩

def c1limiter : String → LimitOutcome := fun _ => .result false

def c1env : Env := ⟨[("LOGIN_RATE_LIMITER", c1limiter)]⟩

def c1backend : Request → Response := fun _ => ⟨200, [], "backend"⟩

/-- Witness for C1 at a concrete login request whose limiter denies. -/
theorem claim1_witness :
    (checkRateLimit c1request c1env).decision =
      some ⟨true, (extractRateLimitKey c1request
        (⟨"LOGIN_RATE_LIMITER", KeyType.email⟩ : EndpointConfig).keyType).key,
        c1request.pathname⟩ ∧
    (fetch c1backend c1request c1env).response =
      ⟨429, [("Content-Type", "application/json"), ("Retry-After", "60")],
        rateLimitErrorBody⟩ :=
  claim1_limited_request_gets_429 c1backend c1request c1env
    ⟨"LOGIN_RATE_LIMITER", KeyType.email⟩ c1limiter rfl rfl rfl

def c2request : Request :=
  ⟨"/api/accounts/register", [("cf-connecting-ip", "1.2.3.4")], ⟨none, none⟩⟩

def c2env : Env := ⟨[]⟩

/-- Counterexample for C2: at a concrete `/api/accounts/register` request with
an environment lacking the limiter binding, `checkRateLimit` returns `null`
(absent), not a decision object with `limited: false`. -/
theorem claim2_counterexample :
    (checkRateLimit c2request c2env).decision = none ∧
    ¬ ∃ d : Decision, (checkRateLimit c2request c2env).decision = some d ∧
      d.limited = false := by
  constructor
  · rfl
  · rintro ⟨d, hd, -⟩
    rw [show (checkRateLimit c2request c2env).decision = none from rfl] at hd
    exact Option.noConfusion hd

/-- Claim C2 (amended): for every request whose path matches a policy-table
entry but whose named limiter binding is absent, `checkRateLimit` returns
absent (`null`) — which the handler treats as not limited — a warning is
logged, and the request is forwarded to the backend handler. -/
theorem claim2_missing_binding_fail_open (backend : Request → Response)
    (request : Request) (env : Env) (cfg : EndpointConfig)
    (hpath : lookupEndpoint request.pathname = some cfg)
    (hbind : envGet env cfg.limiter = none) :
    (checkRateLimit request env).decision = none ∧
    (checkRateLimit request env).logs =
      [.warn ("Rate limiter binding \x27" ++ cfg.limiter ++
        "\x27 not found, skipping rate limit check")] ∧
    (fetch backend request env).response = backend request ∧
    (fetch backend request env).forwardedToBackend = true := by
  have hc := checkRateLimit_of_unbound request env cfg hpath hbind
  refine ⟨by rw [hc], by rw [hc], ?_, ?_⟩ <;>
    · unfold fetch
      rw [hc]

/-- Witness for C2 (amended) at the concrete request of the counterexample. -/
theorem claim2_witness :
    (checkRateLimit c2request c2env).decision = none ∧
    (checkRateLimit c2request c2env).logs =
      [.warn ("Rate limiter binding \x27" ++ "LOGIN_RATE_LIMITER" ++
        "\x27 not found, skipping rate limit check")] ∧
    (fetch c1backend c2request c2env).response = c1backend c2request ∧
    (fetch c1backend c2request c2env).forwardedToBackend = true :=
  claim2_missing_binding_fail_open c1backend c2request c2env
    ⟨"LOGIN_RATE_LIMITER", KeyType.ip⟩ rfl rfl

/-- Claim C10: for every request whose path matches a policy entry but whose
limiter binding is absent, `checkRateLimit` returns before key extraction: no
body parse is performed, no limiter call is made, and no decision (hence no
key) is produced. -/
theorem claim10_binding_absent_skips_extraction (request : Request) (env : Env)
    (cfg : EndpointConfig)
    (hpath : lookupEndpoint request.pathname = some cfg)
    (hbind : envGet env cfg.limiter = none) :
    (checkRateLimit request env).bodyRead = false ∧
    (checkRateLimit request env).limiterCalls = [] ∧
    (checkRateLimit request env).decision = none := by
  have hc := checkRateLimit_of_unbound request env cfg hpath hbind
  exact ⟨by rw [hc], by rw [hc], by rw [hc]⟩

def c10request : Request :=
  ⟨"/identity/connect/token",
   [("content-type", "application/json")],
   ⟨none, some (some (.vStr "a@b.c"), none)⟩⟩

/-- Witness for C10 at a concrete login request with an empty environment. -/
theorem claim10_witness :
    (checkRateLimit c10request c2env).bodyRead = false ∧
    (checkRateLimit c10request c2env).limiterCalls = [] ∧
    (checkRateLimit c10request c2env).decision = none :=
  claim10_binding_absent_skips_extraction c10request c2env
    ⟨"LOGIN_RATE_LIMITER", KeyType.email⟩ rfl rfl

/-- Claim C5: for every request where the limiter capability's `limit` call
throws, the top-level `fetch` handler still forwards the request to the
backend handler and returns the backend's response (fail-open); in the
embedding `fetch` is a total function, so no exception escapes it. -/
theorem claim5_limiter_throw_fail_open (backend : Request → Response)
    (request : Request) (env : Env) (cfg : EndpointConfig)
    (limiter : String → LimitOutcome)
    (hpath : lookupEndpoint request.pathname = some cfg)
    (hbind : envGet env cfg.limiter = some limiter)
    (hthrow : limiter (extractRateLimitKey request cfg.keyType).key =
      LimitOutcome.throws) :
    (checkRateLimit request env).decision = none ∧
    (fetch backend request env).response = backend request ∧
    (fetch backend request env).forwardedToBackend = true := by
  have hc := checkRateLimit_of_bound request env cfg limiter hpath hbind
  rw [hthrow] at hc
  refine ⟨by rw [hc], ?_, ?_⟩ <;>
    · unfold fetch
      rw [hc]

def c5limiter : String → LimitOutcome := fun _ => .throws

def c5env : Env := ⟨[("LOGIN_RATE_LIMITER", c5limiter)]⟩

/-- Witness for C5 at a concrete register request whose limiter call throws. -/
theorem claim5_witness :
    (checkRateLimit c2request c5env).decision = none ∧
    (fetch c1backend c2request c5env).response = c1backend c2request ∧
    (fetch c1backend c2request c5env).forwardedToBackend = true :=
  claim5_limiter_throw_fail_open c1backend c2request c5env
    ⟨"LOGIN_RATE_LIMITER", KeyType.ip⟩ c5limiter rfl rfl rfl

/-- Claim C6: for every request whose URL path is not an exact, case-sensitive
key of the policy table, `checkRateLimit` returns absent with no body parse,
no limiter call and no log, and `fetch` forwards the original request to the
backend handler. -/
theorem claim6_policy_miss_short_circuit (backend : Request → Response)
    (request : Request) (env : Env)
    (h1 : request.pathname ≠ "/identity/connect/token")
    (h2 : request.pathname ≠ "/api/accounts/register")
    (h3 : request.pathname ≠ "/api/accounts/prelogin") :
    checkRateLimit request env = ⟨none, [], false, []⟩ ∧
    (fetch backend request env).response = backend request ∧
    (fetch backend request env).bodyRead = false ∧
    (fetch backend request env).limiterCalls = [] ∧
    (fetch backend request env).logs = [] ∧
    (fetch backend request env).forwardedToBackend = true := by
  have e1 : ("/identity/connect/token" == request.pathname) = false :=
    beq_eq_false_iff_ne.mpr (Ne.symm h1)
  have e2 : ("/api/accounts/register" == request.pathname) = false :=
    beq_eq_false_iff_ne.mpr (Ne.symm h2)
  have e3 : ("/api/accounts/prelogin" == request.pathname) = false :=
    beq_eq_false_iff_ne.mpr (Ne.symm h3)
  have hlook : lookupEndpoint request.pathname = none := by
    simp [lookupEndpoint, RATE_LIMITED_ENDPOINTS, List.find?, e1, e2, e3]
  have hc : checkRateLimit request env = ⟨none, [], false, []⟩ := by
    unfold checkRateLimit
    simp only [hlook]
  refine ⟨hc, ?_, ?_, ?_, ?_, ?_⟩ <;>
    · unfold fetch
      rw [hc]

def c6request : Request :=
  ⟨"/api/sync", [("cf-connecting-ip", "1.2.3.4")], ⟨none, none⟩⟩

/-- Witness for C6 at a concrete unprotected path. -/
theorem claim6_witness :
    checkRateLimit c6request c1env = ⟨none, [], false, []⟩ ∧
    (fetch c1backend c6request c1env).response = c1backend c6request ∧
    (fetch c1backend c6request c1env).bodyRead = false ∧
    (fetch c1backend c6request c1env).limiterCalls = [] ∧
    (fetch c1backend c6request c1env).logs = [] ∧
    (fetch c1backend c6request c1env).forwardedToBackend = true :=
  claim6_policy_miss_short_circuit c1backend c6request c1env
    (by decide) (by decide) (by decide)

/-- Claim C8: every scheduled (non-HTTP) triggering event is forwarded
directly to the backend handler's `scheduled` entry point with no rate-limit
evaluation: no log is produced, no body is parsed, and no limiter call is
made on that path. -/
theorem claim8_scheduled_passthrough {Event Resp : Type}
    (backendScheduled : Event → Resp) (event : Event) :
    scheduled backendScheduled event = (backendScheduled event, [], false, []) :=
  rfl

/-- Claim C3: under the EMAIL key strategy, a form-encoded content type yields
key `email:` + lower-cased form field `username`; a JSON content type (the
form branch not having matched first) yields `email:` + lower-cased body field
`email`, falling back to body field `username` when `email` is absent. -/
theorem claim3_email_key_extraction (request : Request) :
    (strContains ((headersGet request.headers "content-type").getD "")
        "application/x-www-form-urlencoded" = true →
      ∀ u : String, request.body.formUsername = some (some (.vStr u)) →
        u ≠ "" →
        (extractRateLimitKey request .email).key = "email:" ++ jsToLowerCase u) ∧
    (strContains ((headersGet request.headers "content-type").getD "")
        "application/x-www-form-urlencoded" = false →
      strContains ((headersGet request.headers "content-type").getD "")
        "application/json" = true →
      ∀ (e : String) (u : Option JsVal),
        request.body.jsonFields = some (some (.vStr e), u) → e ≠ "" →
        (extractRateLimitKey request .email).key = "email:" ++ jsToLowerCase e) ∧
    (strContains ((headersGet request.headers "content-type").getD "")
        "application/x-www-form-urlencoded" = false →
      strContains ((headersGet request.headers "content-type").getD "")
        "application/json" = true →
      ∀ u : String, request.body.jsonFields = some (none, some (.vStr u)) →
        u ≠ "" →
        (extractRateLimitKey request .email).key = "email:" ++ jsToLowerCase u) := by
  refine ⟨?_, ?_, ?_⟩
  · intro hform u hu hne
    simp [extractRateLimitKey, hform, hu, JsVal.isTruthy, JsVal.toLowerCase, hne]
  · intro hform hjson e u he hne
    simp [extractRateLimitKey, hform, hjson, he, JsVal.isTruthy,
      JsVal.toLowerCase, hne]
  · intro hform hjson u hu hne
    simp [extractRateLimitKey, hform, hjson, hu, JsVal.isTruthy,
      JsVal.toLowerCase, hne]

def c3formRequest : Request :=
  ⟨"/identity/connect/token",
   [("content-type", "application/x-www-form-urlencoded")],
   ⟨some (some (.vStr "User@Example.com")), none⟩⟩

def c3jsonRequest : Request :=
  ⟨"/identity/connect/token",
   [("content-type", "application/json")],
   ⟨none, some (some (.vStr "User@Example.com"), none)⟩⟩

def c3jsonUserRequest : Request :=
  ⟨"/identity/connect/token",
   [("content-type", "application/json")],
   ⟨none, some (none, some (.vStr "Bob@Example.com"))⟩⟩

/-- Witness for C3 at concrete form, JSON-email and JSON-username requests. -/
theorem claim3_witness :
    (extractRateLimitKey c3formRequest .email).key =
      "email:" ++ jsToLowerCase "User@Example.com" ∧
    (extractRateLimitKey c3jsonRequest .email).key =
      "email:" ++ jsToLowerCase "User@Example.com" ∧
    (extractRateLimitKey c3jsonUserRequest .email).key =
      "email:" ++ jsToLowerCase "Bob@Example.com" :=
  ⟨(claim3_email_key_extraction c3formRequest).1 (by decide)
      "User@Example.com" rfl (by decide),
   (claim3_email_key_extraction c3jsonRequest).2.1 (by decide) (by decide)
      "User@Example.com" none rfl (by decide),
   (claim3_email_key_extraction c3jsonUserRequest).2.2 (by decide) (by decide)
      "Bob@Example.com" rfl (by decide)⟩

/-- Claim C9: two invocations of `fetch` on independent requests carrying the
same derived key each perform their own limiter call with that same key
string; the sequence of invocations is the independent per-request map, with
no cross-request caching or short-circuiting. -/
theorem claim9_independent_limiter_calls (backend : Request → Response)
    (env : Env) (r1 r2 : Request) (cfg1 cfg2 : EndpointConfig)
    (lim1 lim2 : String → LimitOutcome) (k : String)
    (hp1 : lookupEndpoint r1.pathname = some cfg1)
    (hb1 : envGet env cfg1.limiter = some lim1)
    (hp2 : lookupEndpoint r2.pathname = some cfg2)
    (hb2 : envGet env cfg2.limiter = some lim2)
    (hk1 : (extractRateLimitKey r1 cfg1.keyType).key = k)
    (hk2 : (extractRateLimitKey r2 cfg2.keyType).key = k) :
    handleSequence backend env [r1, r2] =
      [fetch backend r1 env, fetch backend r2 env] ∧
    (fetch backend r1 env).limiterCalls = [k] ∧
    (fetch backend r2 env).limiterCalls = [k] := by
  have calls : ∀ (r : Request) (cfg : EndpointConfig)
      (lim : String → LimitOutcome),
      lookupEndpoint r.pathname = some cfg →
      envGet env cfg.limiter = some lim →
      (extractRateLimitKey r cfg.keyType).key = k →
      (fetch backend r env).limiterCalls = [k] := by
    intro r cfg lim hp hb hk
    have hc := checkRateLimit_of_bound r env cfg lim hp hb
    unfold fetch
    rw [hc]
    rcases hl : lim (extractRateLimitKey r cfg.keyType).key with s | _
    · cases s <;> simp [hk, createRateLimitResponse]
    · simp [hk]
  exact ⟨rfl, calls r1 cfg1 lim1 hp1 hb1 hk1, calls r2 cfg2 lim2 hp2 hb2 hk2⟩

def c9request1 : Request :=
  ⟨"/identity/connect/token",
   [("content-type", "application/json")],
   ⟨none, some (some (.vStr "Same@Example.com"), none)⟩⟩

def c9request2 : Request :=
  ⟨"/identity/connect/token",
   [("content-type", "application/x-www-form-urlencoded")],
   ⟨some (some (.vStr "SAME@example.com")), none⟩⟩

/-- Witness for C9: two concrete independent requests deriving the same key
each trigger their own limiter call with that key. -/
theorem claim9_witness :
    handleSequence c1backend c1env [c9request1, c9request2] =
      [fetch c1backend c9request1 c1env, fetch c1backend c9request2 c1env] ∧
    (fetch c1backend c9request1 c1env).limiterCalls =
      ["email:same@example.com"] ∧
    (fetch c1backend c9request2 c1env).limiterCalls =
      ["email:same@example.com"] :=
  claim9_independent_limiter_calls c1backend c1env c9request1 c9request2
    ⟨"LOGIN_RATE_LIMITER", KeyType.email⟩ ⟨"LOGIN_RATE_LIMITER", KeyType.email⟩
    c1limiter c1limiter "email:same@example.com"
    rfl rfl rfl rfl (by decide) (by decide)

/-- A falsy JS value observed by the extractor is the empty string or a falsy
non-string. -/
lemma falsy_cases (v : JsVal) (hv : JsVal.isTruthy v = false) :
    v = .vStr "" ∨ v = .vOther false := by
  rcases v with s | t
  · simp [JsVal.isTruthy] at hv
    exact Or.inl (by rw [hv])
  · simp [JsVal.isTruthy] at hv
    exact Or.inr (by rw [hv])

/-- Claim C4: under the EMAIL key strategy, extraction never throws past the
extractor boundary: the key is always either an `email:`-prefixed success or
exactly the IP-strategy fallback key, and every enumerated failure mode
(content type neither form nor JSON; form parse throw; form field absent,
falsy, or a truthy non-string whose `.toLowerCase()` throws; JSON parse
throw; both JSON fields missing; selected JSON value absent or falsy; truthy
non-string JSON value in either field) yields the IP fallback, which is
`ip:unknown` when the trusted client-IP header is absent. -/
theorem claim4_extraction_failure_ip_fallback (request : Request) :
    ((∃ s : String, (extractRateLimitKey request .email).key = "email:" ++ s) ∨
      (extractRateLimitKey request .email).key = ipFallbackKey request) ∧
    (strContains ((headersGet request.headers "content-type").getD "")
        "application/x-www-form-urlencoded" = false →
      strContains ((headersGet request.headers "content-type").getD "")
        "application/json" = false →
      (extractRateLimitKey request .email).key = ipFallbackKey request) ∧
    (strContains ((headersGet request.headers "content-type").getD "")
        "application/x-www-form-urlencoded" = true →
      request.body.formUsername = none →
      (extractRateLimitKey request .email).key = ipFallbackKey request) ∧
    (strContains ((headersGet request.headers "content-type").getD "")
        "application/x-www-form-urlencoded" = true →
      request.body.formUsername = some none →
      (extractRateLimitKey request .email).key = ipFallbackKey request) ∧
    (strContains ((headersGet request.headers "content-type").getD "")
        "application/x-www-form-urlencoded" = true →
      ∀ v : JsVal, request.body.formUsername = some (some v) →
        JsVal.isTruthy v = false →
        (extractRateLimitKey request .email).key = ipFallbackKey request) ∧
    (strContains ((headersGet request.headers "content-type").getD "")
        "application/x-www-form-urlencoded" = true →
      request.body.formUsername = some (some (.vOther true)) →
      (extractRateLimitKey request .email).key = ipFallbackKey request) ∧
    (strContains ((headersGet request.headers "content-type").getD "")
        "application/x-www-form-urlencoded" = false →
      strContains ((headersGet request.headers "content-type").getD "")
        "application/json" = true →
      request.body.jsonFields = none →
      (extractRateLimitKey request .email).key = ipFallbackKey request) ∧
    (strContains ((headersGet request.headers "content-type").getD "")
        "application/x-www-form-urlencoded" = false →
      strContains ((headersGet request.headers "content-type").getD "")
        "application/json" = true →
      request.body.jsonFields = some (none, none) →
      (extractRateLimitKey request .email).key = ipFallbackKey request) ∧
    (strContains ((headersGet request.headers "content-type").getD "")
        "application/x-www-form-urlencoded" = false →
      strContains ((headersGet request.headers "content-type").getD "")
        "application/json" = true →
      ∀ e u : Option JsVal, request.body.jsonFields = some (e, u) →
        (e = none ∨ ∃ v : JsVal, e = some v ∧ JsVal.isTruthy v = false) →
        (u = none ∨ ∃ w : JsVal, u = some w ∧ JsVal.isTruthy w = false) →
        (extractRateLimitKey request .email).key = ipFallbackKey request) ∧
    (strContains ((headersGet request.headers "content-type").getD "")
        "application/x-www-form-urlencoded" = false →
      strContains ((headersGet request.headers "content-type").getD "")
        "application/json" = true →
      ∀ u : Option JsVal,
        request.body.jsonFields = some (some (.vOther true), u) →
        (extractRateLimitKey request .email).key = ipFallbackKey request) ∧
    (strContains ((headersGet request.headers "content-type").getD "")
        "application/x-www-form-urlencoded" = false →
      strContains ((headersGet request.headers "content-type").getD "")
        "application/json" = true →
      ∀ e : Option JsVal,
        request.body.jsonFields = some (e, some (.vOther true)) →
        (e = none ∨ ∃ v : JsVal, e = some v ∧ JsVal.isTruthy v = false) →
        (extractRateLimitKey request .email).key = ipFallbackKey request) ∧
    (headersGet request.headers "cf-connecting-ip" = none →
      ipFallbackKey request = "ip:unknown") := by
  refine ⟨extract_key_shape request .email,
    ?_, ?_, ?_, ?_, ?_, ?_, ?_, ?_, ?_, ?_, ?_⟩
  · intro hform hjson
    simp [extractRateLimitKey, hform, hjson]
  · intro hform hu
    simp [extractRateLimitKey, hform, hu]
  · intro hform hu
    simp [extractRateLimitKey, hform, hu]
  · intro hform v hu hv
    simp [extractRateLimitKey, hform, hu, hv]
  · intro hform hu
    simp [extractRateLimitKey, hform, hu, JsVal.isTruthy, JsVal.toLowerCase]
  · intro hform hjson hj
    simp [extractRateLimitKey, hform, hjson, hj]
  · intro hform hjson hj
    simp [extractRateLimitKey, hform, hjson, hj]
  · intro hform hjson e u hj he hu
    rcases he with rfl | ⟨v, rfl, hv⟩ <;> rcases hu with rfl | ⟨w, rfl, hw⟩
    · simp [extractRateLimitKey, hform, hjson, hj]
    · simp [extractRateLimitKey, hform, hjson, hj, hw]
    · simp [extractRateLimitKey, hform, hjson, hj, hv]
    · simp [extractRateLimitKey, hform, hjson, hj, hv, hw]
  · intro hform hjson u hj
    simp [extractRateLimitKey, hform, hjson, hj, JsVal.isTruthy,
      JsVal.toLowerCase]
  · intro hform hjson e hj he
    rcases he with rfl | ⟨v, rfl, hv⟩
    · simp [extractRateLimitKey, hform, hjson, hj, JsVal.isTruthy,
        JsVal.toLowerCase]
    · rcases falsy_cases v hv with rfl | rfl <;>
        simp [extractRateLimitKey, hform, hjson, hj, JsVal.isTruthy,
          JsVal.toLowerCase]
  · intro hip
    simp [ipFallbackKey, hip]
    rfl

def c4request : Request :=
  ⟨"/identity/connect/token", [("content-type", "text/plain")], ⟨none, none⟩⟩

def c4jsonEmptyRequest : Request :=
  ⟨"/identity/connect/token",
   [("content-type", "application/json")],
   ⟨none, some (none, none)⟩⟩

def c4jsonFalsyRequest : Request :=
  ⟨"/identity/connect/token",
   [("content-type", "application/json"), ("cf-connecting-ip", "5.6.7.8")],
   ⟨none, some (some (.vStr ""), some (.vOther false))⟩⟩

def c4jsonNonStringRequest : Request :=
  ⟨"/identity/connect/token",
   [("content-type", "application/json"), ("cf-connecting-ip", "9.9.9.9")],
   ⟨none, some (some (.vOther true), none)⟩⟩

/-- Witness for C4 at concrete failing requests: unsupported content type with
no client-IP header (key `ip:unknown`), a JSON body with neither field, a JSON
body with falsy `email` and `username` values, and a JSON body whose `email`
is a truthy non-string; each degrades to the IP fallback. -/
theorem claim4_witness :
    (extractRateLimitKey c4request .email).key = ipFallbackKey c4request ∧
    ipFallbackKey c4request = "ip:unknown" ∧
    (extractRateLimitKey c4jsonEmptyRequest .email).key =
      ipFallbackKey c4jsonEmptyRequest ∧
    (extractRateLimitKey c4jsonFalsyRequest .email).key =
      ipFallbackKey c4jsonFalsyRequest ∧
    (extractRateLimitKey c4jsonNonStringRequest .email).key =
      ipFallbackKey c4jsonNonStringRequest :=
  ⟨(claim4_extraction_failure_ip_fallback c4request).2.1
      (by decide) (by decide),
   (claim4_extraction_failure_ip_fallback c4request).2.2.2.2.2.2.2.2.2.2.2 rfl,
   (claim4_extraction_failure_ip_fallback c4jsonEmptyRequest).2.2.2.2.2.2.2.1
      (by decide) (by decide) rfl,
   (claim4_extraction_failure_ip_fallback c4jsonFalsyRequest).2.2.2.2.2.2.2.2.1
      (by decide) (by decide) (some (.vStr "")) (some (.vOther false)) rfl
      (Or.inr ⟨.vStr "", rfl, by decide⟩)
      (Or.inr ⟨.vOther false, rfl, by decide⟩),
   (claim4_extraction_failure_ip_fallback
       c4jsonNonStringRequest).2.2.2.2.2.2.2.2.2.1
      (by decide) (by decide) none rfl⟩

def c7request : Request :=
  ⟨"/api/accounts/register", [("cf-connecting-ip", "")], ⟨none, none⟩⟩

/-- Counterexample for C7: with the `cf-connecting-ip` header present but
carrying the empty value, the IP-strategy key is `ip:unknown`, not `ip:` plus
the header value. -/
theorem claim7_counterexample :
    headersGet c7request.headers "cf-connecting-ip" = some "" ∧
    (extractRateLimitKey c7request .ip).key = "ip:unknown" ∧
    (extractRateLimitKey c7request .ip).key ≠ "ip:" ++ "" := by
  decide

/-- Claim C7 (amended): every extracted key is non-empty and carries an
`email:` or `ip:` namespace; under the IP strategy the key is `ip:` plus the
`cf-connecting-ip` header value when that value is present and non-empty, and
exactly `ip:unknown` when the header is absent or its value is empty. -/
theorem claim7_key_invariant (request : Request) (keyType : KeyType) :
    (extractRateLimitKey request keyType).key ≠ "" ∧
    (∃ s : String,
      (extractRateLimitKey request keyType).key = "email:" ++ s ∨
      (extractRateLimitKey request keyType).key = "ip:" ++ s) ∧
    (∀ v : String, headersGet request.headers "cf-connecting-ip" = some v →
      v ≠ "" → (extractRateLimitKey request .ip).key = "ip:" ++ v) ∧
    (headersGet request.headers "cf-connecting-ip" = none →
      (extractRateLimitKey request .ip).key = "ip:unknown") ∧
    (headersGet request.headers "cf-connecting-ip" = some "" →
      (extractRateLimitKey request .ip).key = "ip:unknown") := by
  have hshape :
      ∃ s : String,
        (extractRateLimitKey request keyType).key = "email:" ++ s ∨
        (extractRateLimitKey request keyType).key = "ip:" ++ s := by
    rcases extract_key_shape request keyType with ⟨s, hs⟩ | hip
    · exact ⟨s, Or.inl hs⟩
    · rcases ipFallbackKey_shape request with ⟨s, hs⟩
      exact ⟨s, Or.inr (hip.trans hs)⟩
  refine ⟨?_, hshape, ?_, ?_, ?_⟩
  · rcases hshape with ⟨s, hs | hs⟩ <;> rw [hs]
    · exact append_ne_empty "email:" s (by decide)
    · exact append_ne_empty "ip:" s (by decide)
  · intro v hv hne
    have hb : (v == "") = false := beq_eq_false_iff_ne.mpr hne
    simp [extractRateLimitKey, ipFallbackKey, hv, hb]
  · intro hip
    simp [extractRateLimitKey, ipFallbackKey, hip]
    rfl
  · intro hip
    simp [extractRateLimitKey, ipFallbackKey, hip]
    rfl

def c7okRequest : Request :=
  ⟨"/api/accounts/prelogin", [("cf-connecting-ip", "1.2.3.4")], ⟨none, none⟩⟩

/-- Witness for C7 (amended) at a concrete request with a non-empty client-IP
header value. -/
theorem claim7_witness :
    (extractRateLimitKey c7okRequest .ip).key = "ip:" ++ "1.2.3.4" :=
  (claim7_key_invariant c7okRequest .ip).2.2.1 "1.2.3.4" rfl (by decide)

end RateLimitWrapper
